import Mathlib

/-!
Verification of the JSA engine-abstraction header
(`bridge/jsa/include/js_context.h` of the kraken repository).

The header declares `JSContext` (the engine interface), `HostObject`,
`ThreadScope`, and the RAII `Scope` bracket.  The concrete pieces that
carry code in the header are embedded directly; operations that the
header only declares (pure-virtual engine contracts, or defaults whose
bodies live in a source file not present here) are modelled from the
spec, each with a doc comment saying so.
-/

namespace Jsa

/-! ## Scope model

`Scope`'s constructor runs `rt.pushScope()` and stores the returned
`ScopeState*`; its destructor runs `rt.popScope(prv_)`.  We embed the
context's scope facet as a trace of push/pop events plus a counter
supplying fresh `ScopeState` identifiers, and the C++ stack lifetime of
a `Scope` variable (destructor running on both normal exit and
unwinding) as the bracket `scopeRun`.  The guarded region is a state
transformer returning `Except`, whose `error` branch models a C++
exception propagating out of the region. -/

/-- A scope lifecycle event recorded against a context: `push id` is a
`pushScope` call that returned the `ScopeState` identified by `id`,
`pop id` is a `popScope` call receiving that identifier. -/
inductive ScopeEvent where
  | push (id : Nat)
  | pop (id : Nat)
deriving DecidableEq, Repr

/-- The scope facet of `JSContext`: a supply of fresh `ScopeState`
identifiers and the trace of scope events so far. -/
structure ScopeCtx where
  nextScopeId : Nat
  events : List ScopeEvent
deriving DecidableEq, Repr

/-- `JSContext::pushScope`: returns a fresh `ScopeState` identifier and
records the push event. -/
def pushScope (rt : ScopeCtx) : Nat × ScopeCtx :=
  (rt.nextScopeId,
   { nextScopeId := rt.nextScopeId + 1,
     events := rt.events ++ [ScopeEvent.push rt.nextScopeId] })

/-- `JSContext::popScope(state)`: records the pop event for the given
`ScopeState` identifier. -/
def popScope (rt : ScopeCtx) (st : Nat) : ScopeCtx :=
  { rt with events := rt.events ++ [ScopeEvent.pop st] }

/-- The C++ lifetime of `Scope s(rt); <body>`: the constructor calls
`pushScope` and stores the returned pointer in `prv_`; the body runs;
the destructor calls `popScope(prv_)`.  The destructor runs whether the
body produced a value (`Except.ok`) or an exception (`Except.error`),
exactly as a C++ destructor runs during unwinding. -/
def scopeRun {ε α : Type} (rt : ScopeCtx)
    (body : ScopeCtx → Except ε α × ScopeCtx) : Except ε α × ScopeCtx :=
  let p := pushScope rt
  let r := body p.2
  (r.1, popScope r.2 p.1)

/-- `Scope::callInNewScope(rt, f)`: `Scope s(rt); return f();`. -/
def callInNewScope {ε α : Type} (rt : ScopeCtx)
    (f : ScopeCtx → Except ε α × ScopeCtx) : Except ε α × ScopeCtx :=
  scopeRun rt f

/-- Well-bracketed (LIFO) scope traces: pushes and pops match like
parentheses, each pop naming the identifier of the matching push. -/
inductive Balanced : List ScopeEvent → Prop where
  | nil : Balanced []
  | wrap (id : Nat) (xs : List ScopeEvent) (h : Balanced xs) :
      Balanced (ScopeEvent.push id :: (xs ++ [ScopeEvent.pop id]))
  | seq (xs ys : List ScopeEvent) (hx : Balanced xs) (hy : Balanced ys) :
      Balanced (xs ++ ys)

end Jsa

namespace Jsa

/-- C1: constructing a `Scope` on `rt` calls `pushScope` exactly once;
destroying it calls `popScope` exactly once with exactly the identifier
that its own `pushScope` returned; the pop is appended regardless of
whether the guarded body succeeded or exited with an exception (the
theorem never inspects the body's `Except` result); and if the body's
own trace contribution is well bracketed, the whole bracket's
contribution is well bracketed, giving LIFO matching of nested scopes.
(`Scope` being non-copyable and non-movable is what confines it to this
stack bracket shape in C++.) -/
theorem scope_bracket_push_pop {ε α : Type} (rt : ScopeCtx)
    (body : ScopeCtx → Except ε α × ScopeCtx) (tail : List ScopeEvent)
    (hbody : (body (pushScope rt).2).2.events = (pushScope rt).2.events ++ tail) :
    (scopeRun rt body).2.events =
      rt.events ++
        (ScopeEvent.push rt.nextScopeId :: (tail ++ [ScopeEvent.pop rt.nextScopeId]))
    ∧ (Balanced tail →
        Balanced (ScopeEvent.push rt.nextScopeId ::
          (tail ++ [ScopeEvent.pop rt.nextScopeId]))) := by
  constructor
  · show (popScope (body (pushScope rt).2).2 (pushScope rt).1).events = _
    simp only [popScope]
    rw [hbody]
    simp only [pushScope, List.append_assoc, List.cons_append, List.nil_append]
  · intro hb
    exact Balanced.wrap rt.nextScopeId tail hb

/-- Witness for C1 at a concrete context and a body that exits with an
exception: the pop event is still recorded, matching the push. -/
theorem scope_bracket_push_pop_witness :
    (scopeRun ⟨5, []⟩
        (fun s => ((Except.error () : Except Unit Nat), s))).2.events =
      [] ++ (ScopeEvent.push 5 :: ([] ++ [ScopeEvent.pop 5]))
    ∧ (Balanced [] →
        Balanced (ScopeEvent.push 5 :: ([] ++ [ScopeEvent.pop 5]))) :=
  scope_bracket_push_pop ⟨5, []⟩
    (fun s => ((Except.error () : Except Unit Nat), s)) [] (by simp)

/-- C2: `callInNewScope rt f` forwards `f`'s outcome unchanged — the
first component is exactly what `f` returned, value or exception — and
its final state is exactly `popScope` applied to the state `f` produced
from the post-push state: `f` runs exactly once, after the push and
before the pop, and the pop runs also when `f`'s result is an error. -/
theorem callInNewScope_forwards_outcome {ε α : Type} (rt : ScopeCtx)
    (f : ScopeCtx → Except ε α × ScopeCtx) :
    (callInNewScope rt f).1 = (f (pushScope rt).2).1
    ∧ (callInNewScope rt f).2 =
        popScope (f (pushScope rt).2).2 rt.nextScopeId := by
  exact ⟨rfl, rfl⟩

/-! ## ThreadScope registration

`JSContext` holds one data member, `std::unique_ptr<ThreadScope>
thread_scope_ptr_`, null on construction.  A derived engine class adds
its own state; we keep that as an abstract component `engineState` so
that frame properties are meaningful.  A possibly-null
`unique_ptr<ThreadScope>` / `ThreadScope*` is an `Option τ` where `τ`
stands for the pointee identity. -/

/-- The `JSContext` object state relevant to thread-scope registration:
the declared member `thread_scope_ptr_` plus the rest of the (derived,
engine-specific) object state. -/
structure TSContext (ρ τ : Type) where
  engineState : ρ
  thread_scope_ptr_ : Option τ
deriving DecidableEq, Repr

/-- `JSContext::bindThreadScope(threadScope)`:
`thread_scope_ptr_ = std::move(threadScope);` — overwrites the member
with the argument (a null argument is a legal `unique_ptr`). -/
def bindThreadScope {ρ τ : Type} (rt : TSContext ρ τ) (ts : Option τ) :
    TSContext ρ τ :=
  { rt with thread_scope_ptr_ := ts }

/-- `JSContext::threadScope()`:
`if (thread_scope_ptr_ == nullptr) return nullptr; return thread_scope_ptr_.get();` -/
def threadScope {ρ τ : Type} (rt : TSContext ρ τ) : Option τ :=
  if rt.thread_scope_ptr_.isNone then none
  else rt.thread_scope_ptr_

/-- `threadScope` is a `const` member whose body performs no write: as a
state transformer it returns the pointer and the receiver unchanged. -/
def threadScopeSt {ρ τ : Type} (rt : TSContext ρ τ) :
    Option τ × TSContext ρ τ :=
  (threadScope rt, rt)

/-- A freshly constructed context: a default-constructed `unique_ptr`
member is null. -/
def initContext {ρ τ : Type} (r : ρ) : TSContext ρ τ :=
  { engineState := r, thread_scope_ptr_ := none }

/-- The context state after a sequence of `bindThreadScope` calls. -/
def applyBinds {ρ τ : Type} (rt : TSContext ρ τ) (calls : List (Option τ)) :
    TSContext ρ τ :=
  calls.foldl bindThreadScope rt

theorem threadScope_eq_get {ρ τ : Type} (rt : TSContext ρ τ) :
    threadScope rt = rt.thread_scope_ptr_ := by
  cases h : rt.thread_scope_ptr_ <;> simp [threadScope, h]

theorem applyBinds_snoc {ρ τ : Type} (rt : TSContext ρ τ)
    (calls : List (Option τ)) (c : Option τ) :
    applyBinds rt (calls ++ [c]) = bindThreadScope (applyBinds rt calls) c := by
  simp [applyBinds]

/-- C3 as stated: `threadScope()` returns null exactly when no
`bindThreadScope` call has been made, and after any sequence of calls
it returns the value passed to the most recent one. -/
def threadScopeNullIffUnbound (ρ τ : Type) (r : ρ) : Prop :=
  ∀ calls : List (Option τ),
    (threadScope (applyBinds (initContext r) calls) = none ↔ calls = [])
    ∧ (∀ (calls2 : List (Option τ)) (c : Option τ), calls = calls2 ++ [c] →
        threadScope (applyBinds (initContext r) calls) = c)

/-- C3 counterexample: `bindThreadScope` accepts a null
`unique_ptr<ThreadScope>`; after the single call sequence
`[bindThreadScope(nullptr)]`, `threadScope()` returns null even though
a `bindThreadScope` call has been made, so the "null iff no call" half
of the claim is false. -/
theorem threadScope_null_iff_unbound_false :
    ¬ threadScopeNullIffUnbound Unit Nat () := by
  intro h
  have h1 := (h [(none : Option Nat)]).1
  have h2 : threadScope (applyBinds (initContext ()) [(none : Option Nat)]) =
      none := by
    simp [applyBinds, bindThreadScope, initContext, threadScope]
  have h3 := h1.mp h2
  exact List.cons_ne_nil none [] h3

/-- C3 amended: `threadScope()` returns null on a context with no
`bindThreadScope` call; after any nonempty sequence of calls it returns
exactly the pointer passed to the most recent call (so null when that
call passed a null pointer) — last bound value wins, and the single
`thread_scope_ptr_` member holds at most one registration at a time. -/
theorem threadScope_last_bind_wins {ρ τ : Type} (r : ρ) :
    threadScope (applyBinds (initContext r) ([] : List (Option τ))) = none
    ∧ ∀ (calls : List (Option τ)) (c : Option τ),
        threadScope (applyBinds (initContext r) (calls ++ [c])) = c := by
  constructor
  · simp [applyBinds, initContext, threadScope]
  · intro calls c
    rw [applyBinds_snoc, threadScope_eq_get]
    rfl

/-- The spec-described simpler form of `threadScope()`: unconditionally
return `thread_scope_ptr_.get()` (the `get()` of a null `unique_ptr` is
the null pointer). -/
def threadScopeSimple {ρ τ : Type} (rt : TSContext ρ τ) : Option τ :=
  rt.thread_scope_ptr_

/-- C9: the null check in `threadScope()` is redundant — on every
context state the function as written returns the same pointer as the
unconditional `return thread_scope_ptr_.get();`. -/
theorem threadScope_refines_simple {ρ τ : Type} (rt : TSContext ρ τ) :
    threadScope rt = threadScopeSimple rt :=
  threadScope_eq_get rt

/-- C10: `bindThreadScope` writes only the `thread_scope_ptr_` member
and leaves the rest of the object state untouched; `threadScope` (a
`const` member with no writes) leaves the whole state unchanged, so two
consecutive `threadScope()` calls with no intervening bind return the
same pointer. -/
theorem bindThreadScope_frame {ρ τ : Type} (rt : TSContext ρ τ)
    (t : Option τ) :
    (bindThreadScope rt t).engineState = rt.engineState
    ∧ (bindThreadScope rt t).thread_scope_ptr_ = t
    ∧ (threadScopeSt rt).2 = rt
    ∧ (threadScopeSt ((threadScopeSt rt).2)).1 = (threadScopeSt rt).1 := by
  exact ⟨rfl, rfl, rfl, rfl⟩

/-! ## Value model

The header declares `Value`, `String`, `Symbol`, `Object`, `PropNameID`
and the per-type `strictEquals` overloads, but their bodies are engine
contracts or live in headers not present here, so the data model below
is modelled from the spec. -/

/-- Modelled from the spec: the identity of an `Object` heap entity (the
spec's reference identity for `===`). -/
structure ObjectRef where
  ref : Nat
deriving DecidableEq, Repr

/-- Modelled from the spec: the identity of a `Symbol` heap entity. -/
structure SymbolRef where
  ref : Nat
deriving DecidableEq, Repr

/-- Modelled from the spec: a `String` handle — a heap cell identity
plus the character content it denotes.  Two distinct cells may carry
equal content. -/
structure StringHandle where
  ref : Nat
  content : String
deriving DecidableEq, Repr

/-- Modelled from the spec: an interned property name (`PropNameID`). -/
structure PropNameID where
  ref : Nat
  name : String
deriving DecidableEq, Repr

/-- Modelled from the spec: the IEEE-754 double payload of a `Number`,
kept only up to what `===` distinguishes: NaN, the two signed zeroes,
the two infinities, and ordinary nonzero finite values represented by
their rational value. -/
inductive IEEEDouble where
  | nan
  | zero (negative : Bool)
  | finiteNonzero (value : ℚ)
  | inf (negative : Bool)
deriving DecidableEq, Repr

/-- Modelled from the spec: IEEE-754 `==` on doubles as ECMAScript `===`
uses it — NaN is unequal to everything including itself, the two
zeroes are equal regardless of sign, other values compare by value. -/
def ieeeEq : IEEEDouble → IEEEDouble → Bool
  | IEEEDouble.nan, _ => false
  | _, IEEEDouble.nan => false
  | IEEEDouble.zero _, IEEEDouble.zero _ => true
  | IEEEDouble.finiteNonzero a, IEEEDouble.finiteNonzero b => decide (a = b)
  | IEEEDouble.inf a, IEEEDouble.inf b => decide (a = b)
  | _, _ => false

/-- Modelled from the spec: the `Value` tagged union over undefined,
null, boolean, number, String, Symbol, Object. -/
inductive JSValue where
  | undefined
  | null
  | boolean (b : Bool)
  | number (n : IEEEDouble)
  | string (s : StringHandle)
  | symbol (s : SymbolRef)
  | object (o : ObjectRef)
deriving DecidableEq, Repr

/-- Modelled from the spec: `strictEquals(const Object &, const Object &)`
— reference identity of the heap entities. -/
def strictEqualsObject (a b : ObjectRef) : Bool :=
  decide (a.ref = b.ref)

/-- Modelled from the spec: `strictEquals(const Symbol &, const Symbol &)`
— reference identity of the heap entities. -/
def strictEqualsSymbol (a b : SymbolRef) : Bool :=
  decide (a.ref = b.ref)

/-- Modelled from the spec: `strictEquals(const String &, const String &)`
— content equality, regardless of cell identity. -/
def strictEqualsString (a b : StringHandle) : Bool :=
  decide (a.content = b.content)

/-- Modelled from the spec: strict equality on `Number` payloads is
IEEE-754 equality. -/
def strictEqualsNumber (a b : IEEEDouble) : Bool :=
  ieeeEq a b

/-- C8: strict equality implements ECMAScript strict comparison per
type: Objects and Symbols compare by heap-entity identity, Strings by
content, Numbers by IEEE-754 equality, so NaN is unequal to itself and
to everything, the two signed zeroes are equal, and other finite values
compare by value. -/
theorem strictEquals_per_type :
    (∀ a b : ObjectRef, strictEqualsObject a b = true ↔ a.ref = b.ref)
    ∧ (∀ a b : SymbolRef, strictEqualsSymbol a b = true ↔ a.ref = b.ref)
    ∧ (∀ a b : StringHandle,
        strictEqualsString a b = true ↔ a.content = b.content)
    ∧ strictEqualsNumber IEEEDouble.nan IEEEDouble.nan = false
    ∧ (∀ n : IEEEDouble, strictEqualsNumber IEEEDouble.nan n = false
        ∧ strictEqualsNumber n IEEEDouble.nan = false)
    ∧ strictEqualsNumber (IEEEDouble.zero true) (IEEEDouble.zero false) = true
    ∧ (∀ a b : ℚ,
        strictEqualsNumber (IEEEDouble.finiteNonzero a)
            (IEEEDouble.finiteNonzero b) = true ↔ a = b) := by
  refine ⟨?_, ?_, ?_, rfl, ?_, rfl, ?_⟩
  · intro a b; simp [strictEqualsObject]
  · intro a b; simp [strictEqualsSymbol]
  · intro a b; simp [strictEqualsString]
  · intro n; exact ⟨by cases n <;> rfl, by cases n <;> rfl⟩
  · intro a b; simp [strictEqualsNumber, ieeeEq]

/-! ## Error taxonomy -/

/-- Modelled from the spec: a JS-level exception value as the bridge
sees it — a type error (frozen-object write rejection) or a plain JS
Error, each carrying a message. -/
inductive JSErrorValue where
  | typeError (message : String)
  | jsError (message : String)
deriving DecidableEq, Repr

/-- Modelled from the spec: the `EvaluationError` surfaced to native
code, carrying the JS error's message and stack. -/
structure EvaluationError where
  message : String
  stack : String
deriving DecidableEq, Repr

def exceptIsOk {ε α : Type} : Except ε α → Bool
  | Except.ok _ => true
  | Except.error _ => false

/-! ## HostObject defaults

The default bodies of `HostObject::get`, `HostObject::set` and
`HostObject::getPropertyNames` live in a source file not present under
this tree; the header's doc comments and the spec state them, and they
are modelled from those. -/

/-- Modelled from the spec: the default `HostObject::get` returns
undefined for every property name.  The context parameter is abstract:
the default consults nothing. -/
def hostObjectDefaultGet {κ : Type} (ctx : κ) (name : PropNameID) :
    Except JSErrorValue JSValue :=
  Except.ok JSValue.undefined

/-- Modelled from the spec: the default `HostObject::set` throws a type
error mimicking assignment to a frozen object in strict mode, for every
name and value. -/
def hostObjectDefaultSet {κ : Type} (ctx : κ) (name : PropNameID)
    (value : JSValue) : Except JSErrorValue Unit :=
  Except.error (JSErrorValue.typeError
    ("Cannot assign to property " ++ name.name ++ " of a HostObject"))

/-- Modelled from the spec: the default `HostObject::getPropertyNames`
returns the empty vector. -/
def hostObjectDefaultGetPropertyNames {κ : Type} (ctx : κ) :
    List PropNameID :=
  []

/-- C4: with no overrides, `HostObject::get` yields undefined for every
property name, `HostObject::set` fails with a type-error-equivalent
exception for every name and value, and `getPropertyNames` yields the
empty ordered sequence. -/
theorem hostObject_default_behavior {κ : Type} (ctx : κ)
    (name : PropNameID) (value : JSValue) :
    hostObjectDefaultGet ctx name = Except.ok JSValue.undefined
    ∧ (∃ m : String, hostObjectDefaultSet ctx name value =
        Except.error (JSErrorValue.typeError m))
    ∧ hostObjectDefaultGetPropertyNames ctx = [] :=
  ⟨rfl, ⟨"Cannot assign to property " ++ name.name ++ " of a HostObject", rfl⟩,
    rfl⟩

/-! ## evaluateJavaScript

`JSContext::evaluateJavaScript` is a pure-virtual engine contract; its
model follows the spec: the engine compiles and runs the source buffer
alone, and `sourceURL`/`startLine` only enter the rendering of the
diagnostic stack attached to a failure. -/

/-- Modelled from the spec: an engine's compile-and-run behavior behind
`evaluateJavaScript`.  `run` consumes the source buffer only; a failure
(syntax error in the source, or a runtime error raised by execution)
carries the JS error's message and its raw stack frames. -/
structure EngineSemantics where
  run : String → Except (String × List String) JSValue

/-- Modelled from the spec: diagnostic stack rendering — the raw frames
are decorated with `sourceURL` and `startLine`. -/
def renderStack (frames : List String) (sourceURL : String)
    (startLine : Int) : String :=
  String.intercalate "\n"
    (frames.map (fun f => f ++ " (" ++ sourceURL ++ ":" ++ toString startLine ++ ")"))

/-- `evaluateJavaScript(code, sourceURL, startLine)`: runs the engine on
the source; on failure builds an `EvaluationError` from the JS error's
message and its stack rendered against `sourceURL`/`startLine`. -/
def evaluateJavaScript (eng : EngineSemantics) (code : String)
    (sourceURL : String) (startLine : Int) :
    Except EvaluationError JSValue :=
  match eng.run code with
  | Except.ok v => Except.ok v
  | Except.error e =>
      Except.error { message := e.1, stack := renderStack e.2 sourceURL startLine }

/-- The evaluation result with diagnostics stripped: the value on
success, the JS error's message (but not the rendered stack) on
failure. -/
def evalOutcome : Except EvaluationError JSValue → Except String JSValue
  | Except.ok v => Except.ok v
  | Except.error e => Except.error e.message

/-- An engine failure with its stack frames stripped. -/
def dropFrames : Except (String × List String) JSValue → Except String JSValue
  | Except.ok v => Except.ok v
  | Except.error e => Except.error e.1

/-- C5: `evaluateJavaScript` succeeds exactly when the engine's
compile-and-run of the source succeeds (it fails exactly on a syntax or
runtime error); on success it returns the engine's value and on failure
an `EvaluationError` carrying the JS error's message (the stack field
is the rendered diagnostics); and the outcome with diagnostics stripped
is identical for any two `sourceURL`/`startLine` choices — they affect
diagnostics only, never the evaluation result. -/
theorem evaluateJavaScript_diagnostics_only (eng : EngineSemantics)
    (code u1 u2 : String) (l1 l2 : Int) :
    exceptIsOk (evaluateJavaScript eng code u1 l1) = exceptIsOk (eng.run code)
    ∧ evalOutcome (evaluateJavaScript eng code u1 l1) = dropFrames (eng.run code)
    ∧ evalOutcome (evaluateJavaScript eng code u1 l1) =
        evalOutcome (evaluateJavaScript eng code u2 l2) := by
  refine ⟨?_, ?_, ?_⟩ <;>
    cases h : eng.run code <;>
      simp [evaluateJavaScript, exceptIsOk, evalOutcome, dropFrames, h]

/-! ## Host-function boundary

The conversion of a native exception thrown inside a `HostFunctionType`
into a JS `Error` happens in the engine adapters, not in this header;
the header documents the contract and it is modelled from the spec. -/

/-- Modelled from the spec: the outcome of invoking the native callable
`fn` of a host function — a returned `Value`, a thrown C++ exception
deriving from the standard exception class (so `what()` is available),
or any other thrown native exception. -/
inductive NativeOutcome where
  | ok (v : JSValue)
  | stdExc (whatMessage : String)
  | otherExc
deriving DecidableEq, Repr

/-- Modelled from the spec: the generic message used when a native
exception carries no standard message accessor. -/
def genericNativeMessage : String :=
  "Exception in HostFunction: <unknown>"

/-- Modelled from the spec: the native/JS boundary around a host
function invocation — a returned value passes through; a native
exception is caught and re-raised into JS as a JS `Error` whose message
is `what()` when available and generic otherwise.  The codomain shows
that no raw native exception crosses the boundary. -/
def hostFunctionBoundary (out : NativeOutcome) :
    Except JSErrorValue JSValue :=
  match out with
  | NativeOutcome.ok v => Except.ok v
  | NativeOutcome.stdExc w => Except.error (JSErrorValue.jsError w)
  | NativeOutcome.otherExc => Except.error (JSErrorValue.jsError genericNativeMessage)

/-- Modelled from the spec: a JS exception propagating back out of JS
into native code re-surfaces as an `EvaluationError` carrying the JS
error's message. -/
def resurfaceToNative (r : Except JSErrorValue JSValue) :
    Except EvaluationError JSValue :=
  match r with
  | Except.ok v => Except.ok v
  | Except.error (JSErrorValue.jsError m) =>
      Except.error { message := m, stack := "" }
  | Except.error (JSErrorValue.typeError m) =>
      Except.error { message := m, stack := "" }

/-- The complete round trip of one host-function invocation from JS:
the native outcome crosses the boundary into JS, and a resulting JS
exception re-surfaces to the native caller on return into JS. -/
def invokeHostFunction (out : NativeOutcome) :
    Except EvaluationError JSValue :=
  resurfaceToNative (hostFunctionBoundary out)

/-- C6: a value returned by the native callable passes through
unchanged; a native exception with a standard message accessor becomes
a JS `Error` with exactly that `what()` message, any other native
exception becomes a JS `Error` with the generic message — never a raw
native exception (the boundary's codomain admits only a value or a JS
error) — and on return into JS the failure re-surfaces to native code
as an `EvaluationError` carrying that message. -/
theorem hostFunction_native_exception_boundary (v : JSValue) (w : String) :
    hostFunctionBoundary (NativeOutcome.ok v) = Except.ok v
    ∧ hostFunctionBoundary (NativeOutcome.stdExc w) =
        Except.error (JSErrorValue.jsError w)
    ∧ hostFunctionBoundary NativeOutcome.otherExc =
        Except.error (JSErrorValue.jsError genericNativeMessage)
    ∧ invokeHostFunction (NativeOutcome.ok v) = Except.ok v
    ∧ invokeHostFunction (NativeOutcome.stdExc w) =
        Except.error { message := w, stack := "" }
    ∧ invokeHostFunction NativeOutcome.otherExc =
        Except.error { message := genericNativeMessage, stack := "" } :=
  ⟨rfl, rfl, rfl, rfl, rfl, rfl⟩

/-! ## Const `Value` arguments

The operations `setPropertyValue`, `call`, `callAsConstructor` and
`setValueAtIndexImpl` receive their `Value` arguments as
`const Value &`: the callee has no write access through the reference.
The embedding gives the engine implementation the argument as an
immutable value drawn from the host frame's environment of live
`Value`s, and returns that environment alongside the call's effect. -/

/-- The engine-side implementations of the pure-virtual operations that
receive `Value` arguments.  `σ` is the engine heap; `call` and
`callAsConstructor` may fail with a JS exception. -/
structure EngineOps (σ : Type) where
  setPropertyValueImpl : σ → ObjectRef → PropNameID → JSValue → σ
  callImpl : σ → ObjectRef → JSValue → List JSValue →
    σ × Except JSErrorValue JSValue
  callAsConstructorImpl : σ → ObjectRef → List JSValue →
    σ × Except JSErrorValue JSValue
  setValueAtIndexArrImpl : σ → ObjectRef → Nat → JSValue → σ

/-- A host frame calling `setPropertyValue(obj, name, value)` with
`value` the `i`-th `Value` of its environment, passed by read-only
reference: the frame's environment comes back with the engine effect. -/
def hostSetPropertyValue {σ : Type} (ops : EngineOps σ) (s : σ)
    (obj : ObjectRef) (name : PropNameID) (env : List JSValue) (i : Nat) :
    σ × List JSValue :=
  (ops.setPropertyValueImpl s obj name (env.getD i JSValue.undefined), env)

/-- A host frame calling `call(f, jsThis, args, count)`: `jsThis` and
the argument array are `Value`s of the environment passed by read-only
reference. -/
def hostCall {σ : Type} (ops : EngineOps σ) (s : σ) (f : ObjectRef)
    (env : List JSValue) (thisIdx : Nat) (argIdxs : List Nat) :
    (σ × Except JSErrorValue JSValue) × List JSValue :=
  (ops.callImpl s f (env.getD thisIdx JSValue.undefined)
      (argIdxs.map (fun i => env.getD i JSValue.undefined)),
    env)

/-- A host frame calling `callAsConstructor(f, args, count)`. -/
def hostCallAsConstructor {σ : Type} (ops : EngineOps σ) (s : σ)
    (f : ObjectRef) (env : List JSValue) (argIdxs : List Nat) :
    (σ × Except JSErrorValue JSValue) × List JSValue :=
  (ops.callAsConstructorImpl s f
      (argIdxs.map (fun i => env.getD i JSValue.undefined)),
    env)

/-- A host frame calling `setValueAtIndexImpl(arr, idx, value)`. -/
def hostSetValueAtIndex {σ : Type} (ops : EngineOps σ) (s : σ)
    (arr : ObjectRef) (idx : Nat) (env : List JSValue) (i : Nat) :
    σ × List JSValue :=
  (ops.setValueAtIndexArrImpl s arr idx (env.getD i JSValue.undefined), env)

/-- C7: for every engine implementation and every call, the host
frame's `Value`s are exactly as before the call: the `const Value &`
arguments of `setPropertyValue`, `call`, `callAsConstructor` and
`setValueAtIndexImpl` are never mutated, and the operations hand back
only new `Value`s through their results. -/
theorem value_arguments_not_mutated {σ : Type} (ops : EngineOps σ)
    (s : σ) (obj fobj arr : ObjectRef) (name : PropNameID)
    (env : List JSValue) (i thisIdx idx : Nat) (argIdxs : List Nat) :
    (hostSetPropertyValue ops s obj name env i).2 = env
    ∧ (hostCall ops s fobj env thisIdx argIdxs).2 = env
    ∧ (hostCallAsConstructor ops s fobj env argIdxs).2 = env
    ∧ (hostSetValueAtIndex ops s arr idx env i).2 = env :=
  ⟨rfl, rfl, rfl, rfl⟩

end Jsa
